import Mathlib

/-!
# warp: registry admission in the daemon and the `revoke` client command

A shallow embedding of

* `daemon/srv.go`: `NewSrv`, the accept loop of `Srv.Run`, `Srv.handleHost`
  and `Srv.handleShellClient`;
* `client/command/revoke.go`: `NewRevoke`, `Revoke.Parse`, `Revoke.Execute`.

Go maps are modelled as partial functions on their keys, pointers to `Warp` objects as
the object stored under the key, sends on a session and calls into other files
as entries of an effect trace, and Go `error` results as `Option Error`
(`none` is `nil`).
-/

/-! ## lib/errors -/

/-- Error values. `newf` is an error created by `errors.Newf` at a site of the
embedded files, `callee` is an error handed back by a function that lives
outside of them, `trace` is `errors.Trace`. -/
inductive Error where
  | newf (msg : String)
  | callee (descr : String)
  | trace (cause : Error)
deriving DecidableEq, Repr

namespace Daemon

/-! ## daemon/srv.go: data -/

/-- Terminal size, the type of `initial.WindowSize`. -/
structure Size where
  Rows : Nat
  Cols : Nat
deriving DecidableEq, Repr

/-- The part of `warp.HostUpdate` read by `Srv.handleHost`. -/
structure HostUpdate where
  WindowSize : Size
deriving DecidableEq, Repr

/-- One row of a warp's user table. -/
structure UserState where
  token : String
  username : String
  mode : Nat
  hosting : Bool
deriving DecidableEq, Repr

/-- The fields of `Warp` set by the composite literal of `Srv.handleHost`
(srv.go:178-185). The channel `data` and the `mutex` carry no content when
fresh and are left out. -/
structure Warp where
  token : String
  windowSize : Size
  host : Option UserState
  clients : List (String × UserState)
deriving DecidableEq, Repr

/-- A session: `id` stands for the identity of the `*Session` pointer, `warp`
is the field `ss.warp` read by the handlers. -/
structure Session where
  id : Nat
  warp : String
deriving DecidableEq, Repr

/-- The registry `map[string]*Warp`. -/
abbrev Registry := String → Option Warp

/-- The empty map `map[string]*Warp{}`. -/
def Registry.empty : Registry := fun _ => none

/-- Map assignment `m[k] = v`. -/
def Registry.insert (m : Registry) (k : String) (v : Warp) : Registry :=
  fun k' => if k' = k then some v else m k'

/-- The builtin `delete(m, k)`. -/
def Registry.delete (m : Registry) (k : String) : Registry :=
  fun k' => if k' = k then none else m k'

/-- The field `warps` of `Srv`; `address`, `certFile` and `keyFile` are only
read by the listener setup, and the mutex is rendered by the atomicity of the
steps below. -/
structure Srv where
  warps : Registry

/-- `NewSrv`: the registry starts empty. -/
def NewSrv : Srv := ⟨Registry.empty⟩

/-- What a handler does besides changing the registry, in program order. -/
inductive Effect where
  /-- Call `logging.Logf(ctx, format, ss.ToString())`. -/
  | log (format : String) (ss : Session)
  /-- Call `ss.SendInternalError(ctx)`. -/
  | sendInternalError (ss : Session)
  /-- Call `ss.SendError(ctx, code, message)`. -/
  | sendError (ss : Session) (code : String) (message : String)
  /-- Call `s.warps[ss.warp].handleHost(ctx, ss)`. -/
  | warpHandleHost (ss : Session)
  /-- Call `s.warps[ss.warp].handleShellClient(ctx, ss)`. -/
  | warpHandleShellClient (ss : Session)
deriving DecidableEq, Repr

/-- An effect that puts an error frame on the wire of session `ss`. -/
def Effect.isErrorFrameTo (ss : Session) : Effect → Bool
  | .sendInternalError ss' => decide (ss' = ss)
  | .sendError ss' _ _ => decide (ss' = ss)
  | _ => false

/-- An effect that enters a handler of a `Warp` object. -/
def Effect.isWarpHandler : Effect → Bool
  | .warpHandleHost _ => true
  | .warpHandleShellClient _ => true
  | _ => false

/-- Outcome of a handler of `Srv`: the server afterwards, the trace, and the
returned `error`. -/
structure Result where
  srv : Srv
  effects : List Effect
  err : Option Error

/-! ## daemon/srv.go: `Srv.handleHost` -/

/-- The critical section srv.go:161-187: look `ss.warp` up and, when it has no
entry, store a fresh `Warp` under it. `none` is the branch `if ok`, in which
the mutex is released without a write. -/
def Srv.lockedInsert (s : Srv) (ss : Session) (initial : HostUpdate) : Option Srv :=
  match s.warps ss.warp with
  | some _ => none
  | none =>
    some ⟨s.warps.insert ss.warp
      { token := ss.warp, windowSize := initial.WindowSize, host := none, clients := [] }⟩

/-- The call `s.warps[ss.warp].handleHost(ctx, ss)` of srv.go:189. The method of
`Warp` is defined outside of srv.go and is the parameter `hostHandler`; it gets
the `Warp` object and the session and may change the object it was given. -/
def Srv.runHostHandler (hostHandler : Warp → Session → Warp) (s : Srv) (ss : Session) : Srv :=
  match s.warps ss.warp with
  | some w => ⟨s.warps.insert ss.warp (hostHandler w ss)⟩
  | none => s

/-- The critical section srv.go:196-198: `delete(s.warps, ss.warp)`. -/
def Srv.cleanUp (s : Srv) (ss : Session) : Srv :=
  ⟨s.warps.delete ss.warp⟩

/-- `Srv.handleHost`. `initial` is the result of `ss.updateR.Decode(&initial)`:
the decoded update, or the text of the decoding error. -/
def Srv.handleHost (hostHandler : Warp → Session → Warp) (s : Srv) (ss : Session)
    (initial : Except String HostUpdate) : Result :=
  match initial with
  | .error e =>
    ⟨s, [.sendInternalError ss], some (.trace (.newf ("Initial host update error: " ++ e)))⟩
  | .ok initial =>
    match s.lockedInsert ss initial with
    | none =>
      ⟨s,
       [.log "Initial host update received: session=%s\n" ss,
        .sendError ss "warp_in_use"
          ("The warp you attempted to open is already in use: " ++ ss.warp ++ ".")],
       some (.trace (.newf ("Host error: warp already in use: " ++ ss.warp)))⟩
    | some s1 =>
      ⟨(s1.runHostHandler hostHandler ss).cleanUp ss,
       [.log "Initial host update received: session=%s\n" ss,
        .warpHandleHost ss,
        .log "Cleaning-up warp: session=%s" ss],
       none⟩

/-! ## daemon/srv.go: `Srv.handleShellClient` -/

/-- The call `s.warps[ss.warp].handleShellClient(ctx, ss)` of srv.go:227, with
the method of `Warp` as the parameter `clientHandler`. -/
def Srv.runClientHandler (clientHandler : Warp → Session → Warp) (s : Srv) (ss : Session) : Srv :=
  match s.warps ss.warp with
  | some w => ⟨s.warps.insert ss.warp (clientHandler w ss)⟩
  | none => s

/-- `Srv.handleShellClient`. -/
def Srv.handleShellClient (clientHandler : Warp → Session → Warp) (s : Srv) (ss : Session) :
    Result :=
  match s.warps ss.warp with
  | none =>
    ⟨s,
     [.sendError ss "warp_unknown"
        ("The warp you attempted to connect does not exist: " ++ ss.warp ++ ".")],
     some (.trace (.newf ("Client error: warp unknown " ++ ss.warp)))⟩
  | some _ =>
    ⟨s.runClientHandler clientHandler ss, [.warpHandleShellClient ss], none⟩

/-! ## The registry as a transition system over host sessions -/

/-- The server together with the host sessions that are inside
`Warp.handleHost`, that is between srv.go:187 and srv.go:196. -/
structure World where
  srv : Srv
  hosts : List Session

/-- What a host session can do to the registry. -/
inductive Event where
  /-- A host whose initial update decoded reaches srv.go:161. -/
  | hostHello (ss : Session) (initial : HostUpdate)
  /-- The host handler of `ss` returns and srv.go:196-198 runs. -/
  | hostExit (ss : Session)
deriving DecidableEq, Repr

/-- One atomic step. A hello for a key that has an entry changes nothing (the
session is answered `warp_in_use`); an exit is taken only by a session that is
inside its host handler. -/
def step (st : World) : Event → World
  | .hostHello ss initial =>
    match st.srv.lockedInsert ss initial with
    | some srv1 => ⟨srv1, ss :: st.hosts⟩
    | none => st
  | .hostExit ss =>
    if ss ∈ st.hosts then ⟨st.srv.cleanUp ss, st.hosts.erase ss⟩ else st

/-- The state `NewSrv` leaves: empty registry, no host. -/
def World.init : World := ⟨NewSrv, []⟩

/-- The state reached from `World.init` by a sequence of events. -/
def run (evs : List Event) : World := evs.foldl step World.init

/-- The host sessions of a state that are inside the host handler of warp `w`. -/
def World.hostsOf (st : World) (w : String) : List Session :=
  st.hosts.filter (fun ss => decide (ss.warp = w))

/-- The inductive invariant of `step`: running hosts have pairwise different
warps, and the keys of the registry are the warps of the running hosts. -/
def World.Consistent (st : World) : Prop :=
  (st.hosts.map Session.warp).Nodup ∧
    ∀ w, (st.srv.warps w).isSome ↔ w ∈ st.hosts.map Session.warp

/-! ## daemon/srv.go: the accept loop of `Srv.Run` -/

/-- A live `net.Conn`, reduced to what `conn.RemoteAddr().String()` yields. -/
structure Conn where
  remoteAddr : String
deriving DecidableEq, Repr

/-- The pair `conn, err` returned by `ln.Accept()`; `none` is `nil`. -/
structure AcceptResult where
  conn : Option Conn
  err : Option String
deriving DecidableEq, Repr

/-- What an iteration of the accept loop does. -/
inductive RunEffect where
  /-- Call `logging.Logf(ctx, format, args...)`. -/
  | log (format : String) (args : List String)
  /-- Statement `go func() ... s.handle(ctx, conn) ...` for the accepted `conn`. -/
  | spawn (conn : Option Conn)
deriving DecidableEq, Repr

/-- How an iteration of the accept loop ends. -/
inductive Iteration where
  /-- Control goes back to `ln.Accept()` after the given effects. -/
  | next (effects : List RunEffect)
  /-- A method is called on a nil `net.Conn`: run-time panic in the goroutine of `Run`. -/
  | nilDereference
deriving DecidableEq, Repr

/-- One iteration of the loop srv.go:85-108. In the branch `err != nil` the
arguments of `logging.Logf` are evaluated first, among them
`conn.RemoteAddr().String()`. -/
def Srv.acceptIteration (r : AcceptResult) : Iteration :=
  match r.err with
  | some err =>
    match r.conn with
    | none => .nilDereference
    | some conn =>
      .next [.log "Error accepting connection: remote=%s error=%v" [conn.remoteAddr, err]]
  | none => .next [.spawn r.conn]

/-- The loop srv.go:85-108 run on the successive results of `ln.Accept()`:
the effects so far, and whether the goroutine of `Run` panicked. -/
def Srv.acceptLoop : List AcceptResult → List RunEffect → List RunEffect × Bool
  | [], done => (done, false)
  | r :: rest, done =>
    match Srv.acceptIteration r with
    | .nilDereference => (done, true)
    | .next effects => Srv.acceptLoop rest (done ++ effects)

end Daemon

namespace Client

/-! ## client/command/revoke.go: data -/

/-- The command types `warp.CmdTpState`, `warp.CmdTpAuthorize`, `warp.CmdTpRevoke`. -/
inductive CmdTp where
  | State
  | Authorize
  | Revoke
deriving DecidableEq, Repr

/-- The struct `warp.Command` with its fields `Type` and `Args`. -/
structure Command where
  Tp : CmdTp
  Args : List String
deriving DecidableEq, Repr

/-- An element of `SessionState.Users`, with the fields read by `Revoke.Execute`. -/
structure User where
  Token : String
  Username : String
  Mode : Nat
  Hosting : Bool
deriving DecidableEq, Repr

/-- The state snapshot `result.SessionState`; `Users` is the one field that
`Revoke.Execute` reads. -/
structure SessionState where
  Users : List User
deriving DecidableEq, Repr

/-- The reply of `cli.RunLocalCommand`. -/
structure CommandResult where
  Disconnected : Bool
  SessionState : SessionState
deriving DecidableEq, Repr

/-- The command object. -/
structure Revoke where
  usernameOrToken : String
deriving DecidableEq, Repr

/-- `NewRevoke`: `&Revoke{}`, the string field is empty. -/
def NewRevoke : Revoke := ⟨""⟩

/-- `Revoke.Parse`: keeps the first argument, if there is one; the returned
error is always nil. -/
def Revoke.Parse (c : Revoke) (args : List String) : Revoke :=
  match args with
  | a :: _ => { c with usernameOrToken := a }
  | [] => c

/-- What `Revoke.Execute` did: the commands handed to `cli.RunLocalCommand` in
order, the arguments of `PrintSessionState` when it was reached, and the
returned error. -/
structure Outcome where
  issued : List Command
  printed : Option (Bool × SessionState)
  err : Option Error
deriving DecidableEq, Repr

/-- The text of the error of revoke.go:89-95. -/
def disconnectedMsg : String :=
  "The warp is currently disconnected. No client has access to " ++
    "it and all previously authorized users will be revoked " ++
    "upon reconnection."

/-- The text of the error of revoke.go:115-121. -/
def notFoundMsg (usernameOrToken : String) : String :=
  "Username or token not found: " ++ usernameOrToken ++ ". Use `warp state` to " ++
    "retrieve a list of currently connected warp clients."

/-- The body of the loop revoke.go:100-112 on the pair `(args, match)`. -/
def Revoke.loopBody (ModeShellWrite : Nat) (usernameOrToken : String)
    (acc : List String × Bool) (user : User) : List String × Bool :=
  if !user.Hosting then
    let acc1 :=
      if user.Username = usernameOrToken ∨ user.Token = usernameOrToken then
        (acc.1 ++ [user.Token], true)
      else acc
    if usernameOrToken = "" ∧ user.Mode &&& ModeShellWrite ≠ 0 then
      (acc1.1 ++ [user.Token], true)
    else acc1
  else acc

/-- The loop revoke.go:98-112, started with `args := []string{}` and
`match := false`. -/
def Revoke.selectArgs (ModeShellWrite : Nat) (usernameOrToken : String) (users : List User) :
    List String × Bool :=
  users.foldl (Revoke.loopBody ModeShellWrite usernameOrToken) ([], false)

/-- `Revoke.Execute`. The functions `cli.CheckEnvWarp` and `cli.RunLocalCommand`
and the constant `warp.ModeShellWrite` live outside of revoke.go and are
parameters: `CheckEnvWarp` is the error of the check (`none` is nil), and
`RunLocalCommand` maps a command to the reply or to the text of the error. -/
def Revoke.Execute (CheckEnvWarp : Option String)
    (RunLocalCommand : Command → Except String CommandResult) (ModeShellWrite : Nat)
    (c : Revoke) : Outcome :=
  match CheckEnvWarp with
  | some e => ⟨[], none, some (.trace (.callee e))⟩
  | none =>
    match RunLocalCommand ⟨.State, []⟩ with
    | .error e => ⟨[⟨.State, []⟩], none, some (.trace (.callee e))⟩
    | .ok result =>
      if result.Disconnected then
        ⟨[⟨.State, []⟩], none, some (.trace (.newf disconnectedMsg))⟩
      else
        let sel := Revoke.selectArgs ModeShellWrite c.usernameOrToken result.SessionState.Users
        if c.usernameOrToken ≠ "" ∧ sel.2 = false then
          ⟨[⟨.State, []⟩], none, some (.trace (.newf (notFoundMsg c.usernameOrToken)))⟩
        else
          match RunLocalCommand ⟨.Revoke, sel.1⟩ with
          | .error e => ⟨[⟨.State, []⟩, ⟨.Revoke, sel.1⟩], none, some (.trace (.callee e))⟩
          | .ok result =>
            ⟨[⟨.State, []⟩, ⟨.Revoke, sel.1⟩],
             some (result.Disconnected, result.SessionState), none⟩

/-- A user of the snapshot that is not the host and whose `Username` or `Token`
is `usernameOrToken`. -/
def matchesUser (usernameOrToken : String) (u : User) : Bool :=
  !u.Hosting && (decide (u.Username = usernameOrToken) || decide (u.Token = usernameOrToken))

/-- A user of the snapshot that is not the host and whose `Mode` has a bit of
`ModeShellWrite`. -/
def isWriter (ModeShellWrite : Nat) (u : User) : Bool :=
  !u.Hosting && decide (u.Mode &&& ModeShellWrite ≠ 0)

end Client

/-! # Theorems -/

namespace Daemon

/-! ## Registry lemmas -/

theorem Registry.insert_same (m : Registry) (k : String) (v : Warp) :
    m.insert k v k = some v := by
  simp [Registry.insert]

theorem Registry.insert_other (m : Registry) (k k' : String) (v : Warp) (h : k' ≠ k) :
    m.insert k v k' = m k' := by
  simp [Registry.insert, h]

theorem Registry.delete_same (m : Registry) (k : String) : m.delete k k = none := by
  simp [Registry.delete]

theorem Registry.delete_other (m : Registry) (k k' : String) (h : k' ≠ k) :
    m.delete k k' = m k' := by
  simp [Registry.delete, h]

theorem lockedInsert_eq_none_iff (s : Srv) (ss : Session) (initial : HostUpdate) :
    s.lockedInsert ss initial = none ↔ (s.warps ss.warp).isSome := by
  unfold Srv.lockedInsert
  cases h : s.warps ss.warp <;> simp

/-! ## The invariant of the transition system -/

theorem consistent_init : World.init.Consistent := by
  constructor
  · simp [World.init]
  · intro w
    simp [World.init, NewSrv, Registry.empty]

theorem step_hello_taken (st : World) (ss : Session) (initial : HostUpdate) (v : Warp)
    (h : st.srv.warps ss.warp = some v) : step st (.hostHello ss initial) = st := by
  simp [step, Srv.lockedInsert, h]

theorem step_hello_free (st : World) (ss : Session) (initial : HostUpdate)
    (h : st.srv.warps ss.warp = none) :
    step st (.hostHello ss initial) =
      ⟨⟨st.srv.warps.insert ss.warp
          { token := ss.warp, windowSize := initial.WindowSize, host := none, clients := [] }⟩,
        ss :: st.hosts⟩ := by
  simp [step, Srv.lockedInsert, h]

theorem consistent_hello (st : World) (ss : Session) (initial : HostUpdate)
    (h : st.Consistent) : (step st (.hostHello ss initial)).Consistent := by
  obtain ⟨hnd, hkeys⟩ := h
  cases hw : st.srv.warps ss.warp with
  | some v =>
    rw [step_hello_taken st ss initial v hw]
    exact ⟨hnd, hkeys⟩
  | none =>
    rw [step_hello_free st ss initial hw]
    have hfresh : ss.warp ∉ st.hosts.map Session.warp := by
      intro hmem
      have := (hkeys ss.warp).2 hmem
      simp [hw] at this
    refine ⟨?_, ?_⟩
    · exact List.nodup_cons.2 ⟨hfresh, hnd⟩
    · intro w
      by_cases hwk : w = ss.warp
      · subst hwk
        simp [Registry.insert]
      · have hk := hkeys w
        simp only [Registry.insert, hwk, if_false, List.map_cons, List.mem_cons, false_or]
        exact hk

theorem mem_erase_warps (hosts : List Session) (ss : Session)
    (hnd : (hosts.map Session.warp).Nodup) (hss : ss ∈ hosts) (w : String) :
    w ∈ (hosts.erase ss).map Session.warp ↔ w ∈ hosts.map Session.warp ∧ w ≠ ss.warp := by
  have hnd' : hosts.Nodup := List.Nodup.of_map _ hnd
  constructor
  · intro hmem
    obtain ⟨ss', hss', rfl⟩ := List.mem_map.1 hmem
    have hmem' := (List.Nodup.mem_erase_iff hnd').1 hss'
    refine ⟨List.mem_map.2 ⟨ss', hmem'.2, rfl⟩, ?_⟩
    intro heq
    exact hmem'.1 (List.inj_on_of_nodup_map hnd hmem'.2 hss heq)
  · rintro ⟨hmem, hne⟩
    obtain ⟨ss', hss', rfl⟩ := List.mem_map.1 hmem
    have hne' : ss' ≠ ss := fun e => hne (by rw [e])
    exact List.mem_map.2 ⟨ss', (List.Nodup.mem_erase_iff hnd').2 ⟨hne', hss'⟩, rfl⟩

theorem consistent_exit (st : World) (ss : Session) (h : st.Consistent) :
    (step st (.hostExit ss)).Consistent := by
  obtain ⟨hnd, hkeys⟩ := h
  unfold step
  by_cases hss : ss ∈ st.hosts
  · simp only [hss, if_true]
    refine ⟨?_, ?_⟩
    · exact List.Nodup.sublist (List.Sublist.map _ (List.erase_sublist ss st.hosts)) hnd
    · intro w
      rw [mem_erase_warps st.hosts ss hnd hss w]
      by_cases hwk : w = ss.warp
      · subst hwk
        simp [Srv.cleanUp, Registry.delete]
      · simp only [Srv.cleanUp, Registry.delete, hwk, if_false, ne_eq, not_false_eq_true,
          and_true]
        exact hkeys w
  · simp only [hss, if_false]
    exact ⟨hnd, hkeys⟩

theorem consistent_step (st : World) (ev : Event) (h : st.Consistent) :
    (step st ev).Consistent := by
  cases ev with
  | hostHello ss initial => exact consistent_hello st ss initial h
  | hostExit ss => exact consistent_exit st ss h

theorem consistent_foldl (evs : List Event) (st : World) (h : st.Consistent) :
    (evs.foldl step st).Consistent := by
  induction evs generalizing st with
  | nil => exact h
  | cons ev rest ih => exact ih (step st ev) (consistent_step st ev h)

theorem consistent_run (evs : List Event) : (run evs).Consistent :=
  consistent_foldl evs World.init consistent_init

theorem hostsOf_length_le_one (st : World) (h : st.Consistent) (w : String) :
    (st.hostsOf w).length ≤ 1 := by
  have hcount := List.nodup_iff_count_le_one.1 h.1 w
  have heq : (st.hostsOf w).length = (st.hosts.map Session.warp).count w := by
    unfold World.hostsOf
    rw [List.count, List.countP_map, List.countP_eq_length_filter]
    congr 1
  omega

/-! ## Claims on the registry -/

/-- C1: from the empty registry, after any sequence of host hellos and host
exits, every WarpId has at most one host session inside its host handler, and
the registry has an entry for a WarpId exactly when such a session exists. -/
theorem registry_unique_host (evs : List Event) (w : String) :
    ((run evs).hostsOf w).length ≤ 1 ∧
      (((run evs).srv.warps w).isSome ↔ ∃ ss ∈ (run evs).hosts, ss.warp = w) := by
  have h := consistent_run evs
  refine ⟨hostsOf_length_le_one _ h w, ?_⟩
  rw [h.2 w, List.mem_map]

/-- C2: when the initial host update decodes and the session's WarpId already
has an entry, `Srv.handleHost` sends the session exactly one error frame, with
code `warp_in_use`, returns a non-nil error, does not call the warp's host
handler, and leaves the registry as it was. -/
theorem handleHost_warp_in_use (hostHandler : Warp → Session → Warp) (s : Srv) (ss : Session)
    (initial : HostUpdate) (h : (s.warps ss.warp).isSome) :
    (s.handleHost hostHandler ss (.ok initial)).effects.filter (Effect.isErrorFrameTo ss) =
        [.sendError ss "warp_in_use"
          ("The warp you attempted to open is already in use: " ++ ss.warp ++ ".")] ∧
      (s.handleHost hostHandler ss (.ok initial)).err.isSome ∧
      (∀ e ∈ (s.handleHost hostHandler ss (.ok initial)).effects, e.isWarpHandler = false) ∧
      (s.handleHost hostHandler ss (.ok initial)).srv.warps = s.warps := by
  have hnone := (lockedInsert_eq_none_iff s ss initial).2 h
  simp [Srv.handleHost, hnone, Effect.isErrorFrameTo, Effect.isWarpHandler]

/-- Witness of C2: warp `alpha` is in use and a second host asks for it. -/
theorem handleHost_warp_in_use_witness :
    ((Srv.mk (Registry.empty.insert "alpha" ⟨"alpha", ⟨24, 80⟩, none, []⟩)).warps
        (Session.mk 2 "alpha").warp).isSome ∧
      ((Srv.mk (Registry.empty.insert "alpha" ⟨"alpha", ⟨24, 80⟩, none, []⟩)).handleHost
          (fun w _ => w) ⟨2, "alpha"⟩ (.ok ⟨⟨30, 100⟩⟩)).effects.filter
            (Effect.isErrorFrameTo ⟨2, "alpha"⟩) =
        [.sendError ⟨2, "alpha"⟩ "warp_in_use"
          ("The warp you attempted to open is already in use: " ++ "alpha" ++ ".")] :=
  ⟨by simp [Registry.insert],
   (handleHost_warp_in_use (fun w _ => w)
      (Srv.mk (Registry.empty.insert "alpha" ⟨"alpha", ⟨24, 80⟩, none, []⟩)) ⟨2, "alpha"⟩
      ⟨⟨30, 100⟩⟩ (by simp [Registry.insert])).1⟩

/-- C3: when the session's WarpId has no entry, `Srv.handleShellClient` sends
the session exactly one error frame, with code `warp_unknown`, returns a non-nil
error, calls no warp handler and leaves the registry as it was; when the WarpId
has an entry, `Srv.handleShellClient` itself sends no error frame and returns
nil. -/
theorem handleShellClient_warp_unknown (clientHandler : Warp → Session → Warp) (s : Srv)
    (ss : Session) :
    (s.warps ss.warp = none →
      (s.handleShellClient clientHandler ss).effects.filter (Effect.isErrorFrameTo ss) =
          [.sendError ss "warp_unknown"
            ("The warp you attempted to connect does not exist: " ++ ss.warp ++ ".")] ∧
        (s.handleShellClient clientHandler ss).err.isSome ∧
        (∀ e ∈ (s.handleShellClient clientHandler ss).effects, e.isWarpHandler = false) ∧
        (s.handleShellClient clientHandler ss).srv.warps = s.warps) ∧
    ((s.warps ss.warp).isSome →
      (∀ e ∈ (s.handleShellClient clientHandler ss).effects,
          ∀ ss', e.isErrorFrameTo ss' = false) ∧
        (s.handleShellClient clientHandler ss).err = none) := by
  constructor
  · intro h
    simp [Srv.handleShellClient, h, Effect.isErrorFrameTo, Effect.isWarpHandler]
  · intro h
    obtain ⟨v, hv⟩ := Option.isSome_iff_exists.1 h
    simp [Srv.handleShellClient, hv, Effect.isErrorFrameTo]

/-- Witness of C3: a client asks for `beta` while only `alpha` is open, and a
client asks for `alpha`. -/
theorem handleShellClient_warp_unknown_witness :
    ((Srv.mk (Registry.empty.insert "alpha" ⟨"alpha", ⟨24, 80⟩, none, []⟩)).warps
          (Session.mk 3 "beta").warp = none ∧
        ((Srv.mk (Registry.empty.insert "alpha" ⟨"alpha", ⟨24, 80⟩, none, []⟩)).handleShellClient
          (fun w _ => w) ⟨3, "beta"⟩).err.isSome) ∧
      (((Srv.mk (Registry.empty.insert "alpha" ⟨"alpha", ⟨24, 80⟩, none, []⟩)).warps
          (Session.mk 4 "alpha").warp).isSome ∧
        ((Srv.mk (Registry.empty.insert "alpha" ⟨"alpha", ⟨24, 80⟩, none, []⟩)).handleShellClient
          (fun w _ => w) ⟨4, "alpha"⟩).err = none) :=
  ⟨⟨by simp [Registry.insert, Registry.empty],
    ((handleShellClient_warp_unknown (fun w _ => w)
        (Srv.mk (Registry.empty.insert "alpha" ⟨"alpha", ⟨24, 80⟩, none, []⟩)) ⟨3, "beta"⟩).1
      (by simp [Registry.insert, Registry.empty])).2.1⟩,
   ⟨by simp [Registry.insert],
    ((handleShellClient_warp_unknown (fun w _ => w)
        (Srv.mk (Registry.empty.insert "alpha" ⟨"alpha", ⟨24, 80⟩, none, []⟩)) ⟨4, "alpha"⟩).2
      (by simp [Registry.insert])).2⟩⟩

/-- C4: when the session's WarpId `w` has no entry and the initial host update
decodes, `Srv.handleHost` calls the warp's host handler and, the handler having
returned, returns nil with no entry for `w` in the registry and every other
entry as before the call; a later host session for `w` is then taken in too:
its host handler is called and no error frame is sent to it. -/
theorem handleHost_exit_frees_warp (hostHandler : Warp → Session → Warp) (s : Srv)
    (ss : Session) (initial : HostUpdate) (h : s.warps ss.warp = none) :
    Effect.warpHandleHost ss ∈ (s.handleHost hostHandler ss (.ok initial)).effects ∧
      (s.handleHost hostHandler ss (.ok initial)).err = none ∧
      (s.handleHost hostHandler ss (.ok initial)).srv.warps ss.warp = none ∧
      (∀ k, k ≠ ss.warp →
        (s.handleHost hostHandler ss (.ok initial)).srv.warps k = s.warps k) ∧
      (∀ (ss2 : Session) (initial2 : HostUpdate), ss2.warp = ss.warp →
        Effect.warpHandleHost ss2 ∈
            ((s.handleHost hostHandler ss (.ok initial)).srv.handleHost hostHandler ss2
              (.ok initial2)).effects ∧
          (∀ e ∈ ((s.handleHost hostHandler ss (.ok initial)).srv.handleHost hostHandler ss2
              (.ok initial2)).effects, ∀ ss', e.isErrorFrameTo ss' = false) ∧
          ((s.handleHost hostHandler ss (.ok initial)).srv.handleHost hostHandler ss2
              (.ok initial2)).err = none) := by
  have hfree : ∀ (t : Srv) (tt : Session) (i : HostUpdate), t.warps tt.warp = none →
      Effect.warpHandleHost tt ∈ (t.handleHost hostHandler tt (.ok i)).effects ∧
        (∀ e ∈ (t.handleHost hostHandler tt (.ok i)).effects,
          ∀ ss', e.isErrorFrameTo ss' = false) ∧
        (t.handleHost hostHandler tt (.ok i)).err = none ∧
        (t.handleHost hostHandler tt (.ok i)).srv.warps tt.warp = none ∧
        (∀ k, k ≠ tt.warp → (t.handleHost hostHandler tt (.ok i)).srv.warps k = t.warps k) := by
    intro t tt i ht
    refine ⟨?_, ?_, ?_, ?_, ?_⟩
    · simp [Srv.handleHost, Srv.lockedInsert, ht]
    · simp [Srv.handleHost, Srv.lockedInsert, ht, Effect.isErrorFrameTo]
    · simp [Srv.handleHost, Srv.lockedInsert, ht]
    · simp [Srv.handleHost, Srv.lockedInsert, ht, Srv.cleanUp, Registry.delete]
    · intro k hk
      simp [Srv.handleHost, Srv.lockedInsert, ht, Srv.cleanUp, Srv.runHostHandler,
        Registry.delete, Registry.insert, hk]
  obtain ⟨h1, _, h3, h4, h5⟩ := hfree s ss initial h
  refine ⟨h1, h3, h4, h5, ?_⟩
  intro ss2 initial2 hw
  have h4' : (s.handleHost hostHandler ss (.ok initial)).srv.warps ss2.warp = none := by
    rw [hw]; exact h4
  obtain ⟨g1, g2, g3, _, _⟩ := hfree _ ss2 initial2 h4'
  exact ⟨g1, g2, g3⟩

/-- Witness of C4: a host opens `alpha` on a fresh server. -/
theorem handleHost_exit_frees_warp_witness :
    NewSrv.warps (Session.mk 1 "alpha").warp = none ∧
      (NewSrv.handleHost (fun w _ => w) ⟨1, "alpha"⟩ (.ok ⟨⟨24, 80⟩⟩)).err = none ∧
      (NewSrv.handleHost (fun w _ => w) ⟨1, "alpha"⟩ (.ok ⟨⟨24, 80⟩⟩)).srv.warps
        (Session.mk 1 "alpha").warp = none :=
  ⟨rfl,
   (handleHost_exit_frees_warp (fun w _ => w) NewSrv ⟨1, "alpha"⟩ ⟨⟨24, 80⟩⟩ rfl).2.1,
   (handleHost_exit_frees_warp (fun w _ => w) NewSrv ⟨1, "alpha"⟩ ⟨⟨24, 80⟩⟩ rfl).2.2.1⟩

/-! ## The accept loop -/

/-- C9, the code at an accept error: when `ln.Accept()` returns an error and no
connection, the iteration ends in a nil dereference, nothing is logged, and the
loop does not go on to the accept results that follow. -/
theorem acceptLoop_accept_error_faults (err : String) (rest : List AcceptResult)
    (done : List RunEffect) :
    Srv.acceptIteration ⟨none, some err⟩ = .nilDereference ∧
      Srv.acceptLoop (⟨none, some err⟩ :: rest) done = (done, true) := by
  simp [Srv.acceptIteration, Srv.acceptLoop]

end Daemon

namespace Client

/-! ## The selection loop of `Revoke.Execute` -/

theorem loopBody_named (msw : Nat) (arg : String) (harg : arg ≠ "") (acc : List String × Bool)
    (u : User) :
    Revoke.loopBody msw arg acc u =
      if matchesUser arg u then (acc.1 ++ [u.Token], true) else acc := by
  unfold Revoke.loopBody matchesUser
  cases hh : u.Hosting <;> by_cases hm : u.Username = arg ∨ u.Token = arg <;>
    simp [harg, hm]

theorem foldl_loopBody_named (msw : Nat) (arg : String) (harg : arg ≠ "") (users : List User)
    (acc : List String × Bool) :
    users.foldl (Revoke.loopBody msw arg) acc =
      (acc.1 ++ (users.filter (matchesUser arg)).map User.Token,
        acc.2 || users.any (matchesUser arg)) := by
  induction users generalizing acc with
  | nil => simp
  | cons u rest ih =>
    rw [List.foldl_cons, ih, loopBody_named msw arg harg]
    cases hm : matchesUser arg u <;> simp [hm]

theorem selectArgs_named (msw : Nat) (arg : String) (harg : arg ≠ "") (users : List User) :
    Revoke.selectArgs msw arg users =
      ((users.filter (matchesUser arg)).map User.Token, users.any (matchesUser arg)) := by
  unfold Revoke.selectArgs
  rw [foldl_loopBody_named msw arg harg]
  simp

theorem loopBody_subset (msw : Nat) (arg : String) (acc : List String × Bool) (u : User) :
    ∀ t ∈ acc.1, t ∈ (Revoke.loopBody msw arg acc u).1 := by
  intro t ht
  unfold Revoke.loopBody
  split_ifs <;> simp [ht]

theorem foldl_loopBody_subset (msw : Nat) (arg : String) (users : List User)
    (acc : List String × Bool) :
    ∀ t ∈ acc.1, t ∈ (users.foldl (Revoke.loopBody msw arg) acc).1 := by
  induction users generalizing acc with
  | nil => intro t ht; exact ht
  | cons u rest ih =>
    intro t ht
    exact ih _ t (loopBody_subset msw arg acc u t ht)

theorem loopBody_writer (msw : Nat) (acc : List String × Bool) (u : User)
    (hw : isWriter msw u = true) : u.Token ∈ (Revoke.loopBody msw "" acc u).1 := by
  unfold isWriter at hw
  simp only [Bool.and_eq_true, Bool.not_eq_true', decide_eq_true_eq] at hw
  unfold Revoke.loopBody
  simp [hw.1, hw.2]

theorem foldl_loopBody_writer (msw : Nat) (users : List User) (acc : List String × Bool)
    (u : User) (hu : u ∈ users) (hw : isWriter msw u = true) :
    u.Token ∈ (users.foldl (Revoke.loopBody msw "") acc).1 := by
  induction users generalizing acc with
  | nil => cases hu
  | cons v rest ih =>
    rw [List.foldl_cons]
    rcases List.mem_cons.1 hu with rfl | hrest
    · exact foldl_loopBody_subset msw "" rest _ _ (loopBody_writer msw acc u hw)
    · exact ih _ hrest

theorem foldl_loopBody_idle (msw : Nat) (users : List User) (acc : List String × Bool)
    (hw : ∀ u ∈ users, isWriter msw u = false)
    (hn : ∀ u ∈ users, matchesUser "" u = false) :
    users.foldl (Revoke.loopBody msw "") acc = acc := by
  induction users generalizing acc with
  | nil => rfl
  | cons v rest ih =>
    rw [List.foldl_cons]
    have hv : Revoke.loopBody msw "" acc v = acc := by
      have h1 := hw v (List.mem_cons_self _ _)
      have h2 := hn v (List.mem_cons_self _ _)
      unfold isWriter at h1
      unfold matchesUser at h2
      unfold Revoke.loopBody
      cases hh : v.Hosting
      · simp [hh] at h1 h2
        simp [h1, h2]
      · simp
    rw [hv]
    exact ih acc (fun u hu => hw u (List.mem_cons_of_mem _ hu))
      (fun u hu => hn u (List.mem_cons_of_mem _ hu))

/-! ## `Revoke.Execute` past the State query -/

theorem any_matchesUser_eq_false_iff (arg : String) (users : List User) :
    users.any (matchesUser arg) = false ↔
      ∀ u ∈ users, u.Hosting = false → u.Username ≠ arg ∧ u.Token ≠ arg := by
  rw [List.any_eq_false]
  constructor
  · intro h u hu hh
    have := h u hu
    simp [matchesUser, hh] at this
    exact this
  · intro h u hu
    cases hh : u.Hosting
    · have := h u hu hh
      simp [matchesUser, hh, this.1, this.2]
    · simp [matchesUser, hh]

theorem execute_unmatched (RunLocalCommand : Command → Except String CommandResult)
    (msw : Nat) (c : Revoke) (result : CommandResult)
    (hstate : RunLocalCommand ⟨.State, []⟩ = .ok result)
    (hconn : result.Disconnected = false) (harg : c.usernameOrToken ≠ "")
    (hm : result.SessionState.Users.any (matchesUser c.usernameOrToken) = false) :
    c.Execute none RunLocalCommand msw =
      ⟨[⟨.State, []⟩], none, some (.trace (.newf (notFoundMsg c.usernameOrToken)))⟩ := by
  have hsel := selectArgs_named msw c.usernameOrToken harg result.SessionState.Users
  unfold Revoke.Execute
  simp [hstate, hconn, hsel, harg, hm]

theorem execute_selected (RunLocalCommand : Command → Except String CommandResult)
    (msw : Nat) (c : Revoke) (result : CommandResult)
    (hstate : RunLocalCommand ⟨.State, []⟩ = .ok result)
    (hconn : result.Disconnected = false)
    (hgo : c.usernameOrToken = "" ∨
      (Revoke.selectArgs msw c.usernameOrToken result.SessionState.Users).2 = true) :
    c.Execute none RunLocalCommand msw =
      match RunLocalCommand ⟨.Revoke,
          (Revoke.selectArgs msw c.usernameOrToken result.SessionState.Users).1⟩ with
      | .error e =>
        ⟨[⟨.State, []⟩, ⟨.Revoke,
            (Revoke.selectArgs msw c.usernameOrToken result.SessionState.Users).1⟩],
          none, some (.trace (.callee e))⟩
      | .ok reply =>
        ⟨[⟨.State, []⟩, ⟨.Revoke,
            (Revoke.selectArgs msw c.usernameOrToken result.SessionState.Users).1⟩],
          some (reply.Disconnected, reply.SessionState), none⟩ := by
  have hcond : ¬ (c.usernameOrToken ≠ "" ∧
      (Revoke.selectArgs msw c.usernameOrToken result.SessionState.Users).2 = false) := by
    rintro ⟨h1, h2⟩
    rcases hgo with h | h
    · exact h1 h
    · rw [h2] at h; cases h
  unfold Revoke.Execute
  simp only [hstate, hconn, Bool.false_eq_true, if_false, if_neg hcond]

theorem execute_selected_issued (RunLocalCommand : Command → Except String CommandResult)
    (msw : Nat) (c : Revoke) (result : CommandResult)
    (hstate : RunLocalCommand ⟨.State, []⟩ = .ok result)
    (hconn : result.Disconnected = false)
    (hgo : c.usernameOrToken = "" ∨
      (Revoke.selectArgs msw c.usernameOrToken result.SessionState.Users).2 = true) :
    (c.Execute none RunLocalCommand msw).issued =
        [⟨.State, []⟩, ⟨.Revoke,
          (Revoke.selectArgs msw c.usernameOrToken result.SessionState.Users).1⟩] ∧
      (c.Execute none RunLocalCommand msw).err ≠
        some (.trace (.newf (notFoundMsg c.usernameOrToken))) := by
  rw [execute_selected RunLocalCommand msw c result hstate hconn hgo]
  cases RunLocalCommand ⟨.Revoke,
    (Revoke.selectArgs msw c.usernameOrToken result.SessionState.Users).1⟩ <;> simp

/-! ## Claims on `Revoke.Execute` -/

/-- C5: on a connected snapshot and with a non-empty argument, `Revoke.Execute`
returns the error `Username or token not found` exactly when no non-host user
of the snapshot has the argument as `Username` or `Token`; and when it returns
that error, the State query is the only command it has issued. -/
theorem execute_not_found_iff (RunLocalCommand : Command → Except String CommandResult)
    (msw : Nat) (c : Revoke) (result : CommandResult)
    (hstate : RunLocalCommand ⟨.State, []⟩ = .ok result)
    (hconn : result.Disconnected = false) (harg : c.usernameOrToken ≠ "") :
    ((c.Execute none RunLocalCommand msw).err =
          some (.trace (.newf (notFoundMsg c.usernameOrToken))) ↔
        ∀ u ∈ result.SessionState.Users, u.Hosting = false →
          u.Username ≠ c.usernameOrToken ∧ u.Token ≠ c.usernameOrToken) ∧
      ((c.Execute none RunLocalCommand msw).err =
          some (.trace (.newf (notFoundMsg c.usernameOrToken))) →
        (c.Execute none RunLocalCommand msw).issued = [⟨.State, []⟩]) := by
  by_cases hm : result.SessionState.Users.any (matchesUser c.usernameOrToken) = false
  · rw [execute_unmatched RunLocalCommand msw c result hstate hconn harg hm]
    exact ⟨⟨fun _ => (any_matchesUser_eq_false_iff _ _).1 hm, fun _ => rfl⟩, fun _ => rfl⟩
  · have hgo : c.usernameOrToken = "" ∨
        (Revoke.selectArgs msw c.usernameOrToken result.SessionState.Users).2 = true := by
      right
      rw [selectArgs_named msw c.usernameOrToken harg]
      simpa using hm
    have hne := (execute_selected_issued RunLocalCommand msw c result hstate hconn hgo).2
    exact ⟨⟨fun h => absurd h hne, fun h => absurd ((any_matchesUser_eq_false_iff _ _).2 h) hm⟩,
      fun h => absurd h hne⟩

/-- Witness of C5: `revoke zed` when the only client is `bob`. -/
theorem execute_not_found_iff_witness :
    ((fun _ => Except.ok ⟨false, ⟨[⟨"guest_a", "bob", 1, false⟩]⟩⟩ :
          Command → Except String CommandResult) ⟨.State, []⟩ =
        .ok ⟨false, ⟨[⟨"guest_a", "bob", 1, false⟩]⟩⟩) ∧
      (Revoke.mk "zed").usernameOrToken ≠ "" ∧
      ((Revoke.mk "zed").Execute none
          (fun _ => .ok ⟨false, ⟨[⟨"guest_a", "bob", 1, false⟩]⟩⟩) 2).issued =
        [⟨.State, []⟩] :=
  ⟨rfl, by decide,
   (execute_not_found_iff (fun _ => .ok ⟨false, ⟨[⟨"guest_a", "bob", 1, false⟩]⟩⟩) 2
      ⟨"zed"⟩ ⟨false, ⟨[⟨"guest_a", "bob", 1, false⟩]⟩⟩ rfl rfl (by decide)).2
     (by decide)⟩

/-- C6: on a connected snapshot and with a non-empty argument that matches a
non-host user, `Revoke.Execute` issues a Revoke command whose args are the
Tokens of the users with `Hosting = false` whose `Username` or `Token` is the
argument, in snapshot order, one per user; no user with `Hosting = true`
contributes. -/
theorem execute_args_named (RunLocalCommand : Command → Except String CommandResult)
    (msw : Nat) (c : Revoke) (result : CommandResult)
    (hstate : RunLocalCommand ⟨.State, []⟩ = .ok result)
    (hconn : result.Disconnected = false) (harg : c.usernameOrToken ≠ "")
    (hmatch : ∃ u ∈ result.SessionState.Users, u.Hosting = false ∧
      (u.Username = c.usernameOrToken ∨ u.Token = c.usernameOrToken)) :
    (c.Execute none RunLocalCommand msw).issued =
        [⟨.State, []⟩,
          ⟨.Revoke, (result.SessionState.Users.filter (fun u =>
              !u.Hosting && (decide (u.Username = c.usernameOrToken) ||
                decide (u.Token = c.usernameOrToken)))).map User.Token⟩] ∧
      ∀ u ∈ result.SessionState.Users.filter (fun u =>
          !u.Hosting && (decide (u.Username = c.usernameOrToken) ||
            decide (u.Token = c.usernameOrToken))), u.Hosting = false := by
  have hsel := selectArgs_named msw c.usernameOrToken harg result.SessionState.Users
  have hany : result.SessionState.Users.any (matchesUser c.usernameOrToken) = true := by
    obtain ⟨u, hu, hh, hm⟩ := hmatch
    rw [List.any_eq_true]
    refine ⟨u, hu, ?_⟩
    rcases hm with hm | hm <;> simp [matchesUser, hh, hm]
  have hgo : c.usernameOrToken = "" ∨
      (Revoke.selectArgs msw c.usernameOrToken result.SessionState.Users).2 = true := by
    right
    rw [hsel]
    exact hany
  constructor
  · rw [(execute_selected_issued RunLocalCommand msw c result hstate hconn hgo).1, hsel]
    rfl
  · intro u hu
    have := (List.mem_filter.1 hu).2
    simp only [Bool.and_eq_true, Bool.not_eq_true'] at this
    exact this.1

/-- Witness of C6: `revoke bob` with two clients named `bob`, a third client and
a host whose username is `bob` too. -/
theorem execute_args_named_witness :
    (∃ u ∈ (CommandResult.mk false ⟨[⟨"guest_a", "bob", 3, false⟩, ⟨"guest_b", "eve", 1, false⟩,
          ⟨"host_h", "bob", 3, true⟩, ⟨"guest_c", "bob", 1, false⟩]⟩).SessionState.Users,
        u.Hosting = false ∧
          (u.Username = (Revoke.mk "bob").usernameOrToken ∨
            u.Token = (Revoke.mk "bob").usernameOrToken)) ∧
      ((Revoke.mk "bob").Execute none
          (fun _ => .ok ⟨false, ⟨[⟨"guest_a", "bob", 3, false⟩, ⟨"guest_b", "eve", 1, false⟩,
            ⟨"host_h", "bob", 3, true⟩, ⟨"guest_c", "bob", 1, false⟩]⟩⟩) 2).issued =
        [⟨.State, []⟩, ⟨.Revoke, ["guest_a", "guest_c"]⟩] :=
  ⟨⟨⟨"guest_a", "bob", 3, false⟩, by simp, rfl, Or.inl rfl⟩,
   ((execute_args_named
      (fun _ => .ok ⟨false, ⟨[⟨"guest_a", "bob", 3, false⟩, ⟨"guest_b", "eve", 1, false⟩,
        ⟨"host_h", "bob", 3, true⟩, ⟨"guest_c", "bob", 1, false⟩]⟩⟩) 2 ⟨"bob"⟩
      ⟨false, ⟨[⟨"guest_a", "bob", 3, false⟩, ⟨"guest_b", "eve", 1, false⟩,
        ⟨"host_h", "bob", 3, true⟩, ⟨"guest_c", "bob", 1, false⟩]⟩⟩ rfl rfl (by decide)
      ⟨⟨"guest_a", "bob", 3, false⟩, by simp, rfl, Or.inl rfl⟩).1).trans (by decide)⟩

/-- C7: on a connected snapshot, `Revoke.Execute` after a parse with no
argument issues a Revoke command whose args hold the Token of every non-host
user whose Mode includes ShellWrite. -/
theorem execute_no_argument_selects_writers
    (RunLocalCommand : Command → Except String CommandResult) (msw : Nat)
    (result : CommandResult) (hstate : RunLocalCommand ⟨.State, []⟩ = .ok result)
    (hconn : result.Disconnected = false) :
    ∃ args, ((NewRevoke.Parse []).Execute none RunLocalCommand msw).issued =
        [⟨.State, []⟩, ⟨.Revoke, args⟩] ∧
      ∀ u ∈ result.SessionState.Users, u.Hosting = false → u.Mode &&& msw ≠ 0 →
        u.Token ∈ args := by
  refine ⟨(Revoke.selectArgs msw "" result.SessionState.Users).1, ?_, ?_⟩
  · exact (execute_selected_issued RunLocalCommand msw (NewRevoke.Parse []) result hstate hconn
      (Or.inl rfl)).1
  · intro u hu hh hw
    have hwr : isWriter msw u = true := by simp [isWriter, hh, hw]
    exact foldl_loopBody_writer msw result.SessionState.Users ([], false) u hu hwr

/-- Witness of C7: `revoke` with a writing client, a reading client and the host. -/
theorem execute_no_argument_selects_writers_witness :
    (CommandResult.mk false ⟨[⟨"guest_a", "bob", 3, false⟩, ⟨"guest_b", "eve", 1, false⟩,
        ⟨"host_h", "amy", 3, true⟩]⟩).Disconnected = false ∧
      ∃ args, ((NewRevoke.Parse []).Execute none
          (fun _ => .ok ⟨false, ⟨[⟨"guest_a", "bob", 3, false⟩, ⟨"guest_b", "eve", 1, false⟩,
            ⟨"host_h", "amy", 3, true⟩]⟩⟩) 2).issued = [⟨.State, []⟩, ⟨.Revoke, args⟩] ∧
        ∀ u ∈ (CommandResult.mk false ⟨[⟨"guest_a", "bob", 3, false⟩,
            ⟨"guest_b", "eve", 1, false⟩, ⟨"host_h", "amy", 3, true⟩]⟩).SessionState.Users,
          u.Hosting = false → u.Mode &&& 2 ≠ 0 → u.Token ∈ args :=
  ⟨rfl,
   execute_no_argument_selects_writers
     (fun _ => .ok ⟨false, ⟨[⟨"guest_a", "bob", 3, false⟩, ⟨"guest_b", "eve", 1, false⟩,
       ⟨"host_h", "amy", 3, true⟩]⟩⟩) 2
     ⟨false, ⟨[⟨"guest_a", "bob", 3, false⟩, ⟨"guest_b", "eve", 1, false⟩,
       ⟨"host_h", "amy", 3, true⟩]⟩⟩ rfl rfl⟩

/-- C8 as stated fails: with `ModeShellWrite = 2`, on a connected snapshot whose
only client is read-only and has an empty `Username`, `revoke` without argument
is answered, returns no error and issues one Revoke command, but the args of
that command hold the client's Token instead of being empty. -/
theorem execute_no_writer_counterexample :
    (CommandResult.mk false ⟨[⟨"guest_a", "", 1, false⟩, ⟨"host_h", "amy", 3, true⟩]⟩).Disconnected
        = false ∧
      (∀ u ∈ (CommandResult.mk false ⟨[⟨"guest_a", "", 1, false⟩,
            ⟨"host_h", "amy", 3, true⟩]⟩).SessionState.Users,
          u.Hosting = false → u.Mode &&& 2 = 0) ∧
      (NewRevoke.Parse []).Execute none
          (fun _ => .ok ⟨false, ⟨[⟨"guest_a", "", 1, false⟩, ⟨"host_h", "amy", 3, true⟩]⟩⟩) 2 =
        ⟨[⟨.State, []⟩, ⟨.Revoke, ["guest_a"]⟩],
          some (false, ⟨[⟨"guest_a", "", 1, false⟩, ⟨"host_h", "amy", 3, true⟩]⟩), none⟩ ∧
      ((NewRevoke.Parse []).Execute none
          (fun _ => .ok ⟨false, ⟨[⟨"guest_a", "", 1, false⟩, ⟨"host_h", "amy", 3, true⟩]⟩⟩)
          2).issued ≠ [⟨.State, []⟩, ⟨.Revoke, []⟩] := by
  refine ⟨rfl, ?_, ?_, ?_⟩
  · decide
  · decide
  · decide

/-- C8, amended: on a connected snapshot in which no non-host user's Mode
includes ShellWrite and no non-host user has an empty `Username` or `Token`,
`Revoke.Execute` with no argument issues, after the State query, exactly one
Revoke command, and that command carries an empty args list, whatever the
answer to it; when the command is answered with a state, `Execute` prints that
state and returns no error, and when it is answered with an error, `Execute`
prints nothing and returns that error. -/
theorem execute_no_writer_empty_args
    (RunLocalCommand : Command → Except String CommandResult) (msw : Nat)
    (result : CommandResult) (hstate : RunLocalCommand ⟨.State, []⟩ = .ok result)
    (hconn : result.Disconnected = false)
    (hread : ∀ u ∈ result.SessionState.Users, u.Hosting = false → u.Mode &&& msw = 0)
    (hnamed : ∀ u ∈ result.SessionState.Users, u.Hosting = false →
      u.Username ≠ "" ∧ u.Token ≠ "") :
    ((NewRevoke.Parse []).Execute none RunLocalCommand msw).issued =
        [⟨.State, []⟩, ⟨.Revoke, []⟩] ∧
      (∀ reply, RunLocalCommand ⟨.Revoke, []⟩ = .ok reply →
        ((NewRevoke.Parse []).Execute none RunLocalCommand msw).err = none ∧
          ((NewRevoke.Parse []).Execute none RunLocalCommand msw).printed =
            some (reply.Disconnected, reply.SessionState)) ∧
      (∀ e, RunLocalCommand ⟨.Revoke, []⟩ = .error e →
        ((NewRevoke.Parse []).Execute none RunLocalCommand msw).err =
            some (.trace (.callee e)) ∧
          ((NewRevoke.Parse []).Execute none RunLocalCommand msw).printed = none) := by
  have hidle : Revoke.selectArgs msw "" result.SessionState.Users = ([], false) := by
    unfold Revoke.selectArgs
    apply foldl_loopBody_idle
    · intro u hu
      cases hh : u.Hosting
      · simp [isWriter, hh, hread u hu hh]
      · simp [isWriter, hh]
    · exact (any_matchesUser_eq_false_iff "" _).2 hnamed |> List.any_eq_false.1 |>
        fun h u hu => by simpa using h u hu
  have hex := execute_selected RunLocalCommand msw (NewRevoke.Parse []) result hstate hconn
    (Or.inl rfl)
  have hpt : (NewRevoke.Parse []).usernameOrToken = "" := rfl
  rw [hpt, hidle] at hex
  rw [hex]
  refine ⟨?_, ?_, ?_⟩
  · cases RunLocalCommand ⟨.Revoke, []⟩ <;> rfl
  · intro reply hreply
    simp only [hreply, and_self]
  · intro e he
    simp only [he, and_self]

/-- Witness of C8, amended: `revoke` with one read-only client `bob`, once with
the Revoke command answered and once with the Revoke command refused. -/
theorem execute_no_writer_empty_args_witness :
    ((∀ u ∈ (CommandResult.mk false ⟨[⟨"guest_a", "bob", 1, false⟩,
            ⟨"host_h", "amy", 3, true⟩]⟩).SessionState.Users,
          u.Hosting = false → u.Mode &&& 2 = 0) ∧
        (∀ u ∈ (CommandResult.mk false ⟨[⟨"guest_a", "bob", 1, false⟩,
            ⟨"host_h", "amy", 3, true⟩]⟩).SessionState.Users,
          u.Hosting = false → u.Username ≠ "" ∧ u.Token ≠ "")) ∧
      ((NewRevoke.Parse []).Execute none
          (fun _ => .ok ⟨false, ⟨[⟨"guest_a", "bob", 1, false⟩, ⟨"host_h", "amy", 3, true⟩]⟩⟩)
          2).issued = [⟨.State, []⟩, ⟨.Revoke, []⟩] ∧
      ((NewRevoke.Parse []).Execute none
          (fun _ => .ok ⟨false, ⟨[⟨"guest_a", "bob", 1, false⟩, ⟨"host_h", "amy", 3, true⟩]⟩⟩)
          2).err = none ∧
      ((NewRevoke.Parse []).Execute none
          (fun cmd => if cmd.Tp = .State then
              .ok ⟨false, ⟨[⟨"guest_a", "bob", 1, false⟩, ⟨"host_h", "amy", 3, true⟩]⟩⟩
            else .error "connection refused")
          2).issued = [⟨.State, []⟩, ⟨.Revoke, []⟩] :=
  ⟨⟨by decide, by decide⟩,
   (execute_no_writer_empty_args
     (fun _ => .ok ⟨false, ⟨[⟨"guest_a", "bob", 1, false⟩, ⟨"host_h", "amy", 3, true⟩]⟩⟩) 2
     ⟨false, ⟨[⟨"guest_a", "bob", 1, false⟩, ⟨"host_h", "amy", 3, true⟩]⟩⟩ rfl rfl
     (by decide) (by decide)).1,
   ((execute_no_writer_empty_args
     (fun _ => .ok ⟨false, ⟨[⟨"guest_a", "bob", 1, false⟩, ⟨"host_h", "amy", 3, true⟩]⟩⟩) 2
     ⟨false, ⟨[⟨"guest_a", "bob", 1, false⟩, ⟨"host_h", "amy", 3, true⟩]⟩⟩ rfl rfl
     (by decide) (by decide)).2.1 _ rfl).1,
   (execute_no_writer_empty_args
     (fun cmd => if cmd.Tp = .State then
         .ok ⟨false, ⟨[⟨"guest_a", "bob", 1, false⟩, ⟨"host_h", "amy", 3, true⟩]⟩⟩
       else .error "connection refused") 2
     ⟨false, ⟨[⟨"guest_a", "bob", 1, false⟩, ⟨"host_h", "amy", 3, true⟩]⟩⟩ rfl rfl
     (by decide) (by decide)).1⟩

/-- C10: when the State query reports `Disconnected = true`, `Revoke.Execute`
returns an error and issues no Revoke command, whatever the argument and the
users of the snapshot; the error is the one of revoke.go:89-95 and the State
query is the only command issued. -/
theorem execute_disconnected (RunLocalCommand : Command → Except String CommandResult)
    (msw : Nat) (c : Revoke) (result : CommandResult)
    (hstate : RunLocalCommand ⟨.State, []⟩ = .ok result)
    (hdis : result.Disconnected = true) :
    (c.Execute none RunLocalCommand msw).err = some (.trace (.newf disconnectedMsg)) ∧
      (c.Execute none RunLocalCommand msw).issued = [⟨.State, []⟩] ∧
      ∀ cmd ∈ (c.Execute none RunLocalCommand msw).issued, cmd.Tp ≠ .Revoke := by
  unfold Revoke.Execute
  simp [hstate, hdis]

/-- Witness of C10: `revoke bob` on a disconnected warp that lists `bob`. -/
theorem execute_disconnected_witness :
    (CommandResult.mk true ⟨[⟨"guest_a", "bob", 3, false⟩]⟩).Disconnected = true ∧
      ((Revoke.mk "bob").Execute none
          (fun _ => .ok ⟨true, ⟨[⟨"guest_a", "bob", 3, false⟩]⟩⟩) 2).issued = [⟨.State, []⟩] :=
  ⟨rfl,
   (execute_disconnected (fun _ => .ok ⟨true, ⟨[⟨"guest_a", "bob", 3, false⟩]⟩⟩) 2 ⟨"bob"⟩
      ⟨true, ⟨[⟨"guest_a", "bob", 3, false⟩]⟩⟩ rfl rfl).2.1⟩

end Client
